import Mathlib

/-!
Verification of the enrollment & grading domain model of the
course-management-system repository (`apps/courses/models.py`,
`apps/courses/serializers.py`, `apps/courses/views.py`).

The Django ORM layer is shallowly embedded: each table is a list of rows in
a `DB` value, foreign keys are row ids (`Nat`), datetimes/dates are `Int`
timestamps, and Python's float/Decimal arithmetic is modelled by exact
rational arithmetic (`ℚ`), with `round(x, 2)` modelled as rounding
`x * 100` to the nearest integer.  Operations that `raise` in Python return
`Except DomainError`.
-/

namespace CourseMgmt

/-- Error taxonomy: each constructor stands for one `raise` site
(`ValidationError` messages are distinguished by the offending field) or an
ORM `DoesNotExist` exception. -/
inductive DomainError where
  | enrollment_closed
  | capacity
  | validation (field : String)
  | not_enrolled
  | submission_closed
  | attachment_required
  | duplicate_submission
  | does_not_exist
  deriving DecidableEq

/-- `Course` row (models.py lines 9-64).  Fields not used by the verified
operations (title, code, description, teacher, syllabus) are omitted. -/
structure Course where
  id : Nat
  is_active : Bool
  enrollment_open : Bool
  start_date : Int
  end_date : Int
  max_students : Nat
  deriving DecidableEq

/-- `Assignment` row (models.py lines 67-141).  `pk` records whether the row
has already been saved (Python `self.pk`); `weight` is the DecimalField. -/
structure Assignment where
  id : Nat
  course : Nat
  due_date : Int
  max_points : Nat
  allow_late_submissions : Bool
  late_submission_deadline : Option Int
  attachment_required : Bool
  weight : ℚ
  pk : Bool
  deriving DecidableEq

/-- `Enrollment` row (models.py lines 144-175). -/
structure Enrollment where
  student : Nat
  course : Nat
  is_active : Bool
  completion_percentage : ℚ
  grade : Option ℚ
  pk : Bool
  deriving DecidableEq

/-- `Submission` row (models.py lines 237-265).  `attachment` is "present or
absent" (the spec treats it as an opaque blob reference). -/
structure Submission where
  assignment : Nat
  student : Nat
  points : Option Nat
  is_reviewed : Bool
  attachment : Bool
  is_late : Bool
  deriving DecidableEq

/-- The relational store: one list of rows per table. -/
structure DB where
  courses : List Course
  assignments : List Assignment
  enrollments : List Enrollment
  submissions : List Submission
  deriving DecidableEq

/-- `Course.objects.get(pk=cid)` (first row with the given id). -/
def findCourse (db : DB) (cid : Nat) : Option Course :=
  db.courses.find? (fun c => c.id == cid)

/-- `Assignment.objects.get(pk=aid)`. -/
def findAssignment (db : DB) (aid : Nat) : Option Assignment :=
  db.assignments.find? (fun a => a.id == aid)

/-- `Submission.objects.get(assignment=aid, student=sid)` (rows are unique
per pair by `unique_together`). -/
def findSubmission (db : DB) (aid sid : Nat) : Option Submission :=
  db.submissions.find? (fun s => s.assignment == aid && s.student == sid)

/-- `course.enrollments.filter(is_active=True).count()` — the
`Course.student_count` property (models.py lines 56-59). -/
def student_count (db : DB) (cid : Nat) : Nat :=
  (db.enrollments.filter (fun e => e.course == cid && e.is_active)).length

/-- `Course.is_enrollment_active` property (models.py lines 47-54):
`is_active and enrollment_open and end_date >= today`. -/
def Course.is_enrollment_active (c : Course) (today : Int) : Bool :=
  c.is_active && c.enrollment_open && decide (today ≤ c.end_date)

/-- `Course.available_slots` property (models.py lines 61-64). -/
def available_slots (db : DB) (c : Course) : Nat :=
  c.max_students - student_count db c.id

/-- `Assignment.is_past_due` property (models.py lines 127-130):
`timezone.now() > self.due_date`. -/
def Assignment.is_past_due (a : Assignment) (now : Int) : Bool :=
  decide (a.due_date < now)

/-- `Assignment.can_accept_submission` property (models.py lines 132-141). -/
def Assignment.can_accept_submission (a : Assignment) (now : Int) : Bool :=
  if !(a.is_past_due now) then true
  else if a.allow_late_submissions then
    match a.late_submission_deadline with
    | some d => decide (now ≤ d)
    | none => true
  else false

/-- `Assignment.clean` (models.py lines 107-121): rejects a due date in the
past, and a late deadline before the due date — the latter only when
`allow_late_submissions` is set. -/
def Assignment.clean (a : Assignment) (now : Int) : Except DomainError Unit :=
  if a.due_date < now then .error (.validation "due_date")
  else if a.allow_late_submissions &&
      (match a.late_submission_deadline with
       | some d => decide (d < a.due_date)
       | none => false) then
    .error (.validation "late_submission_deadline")
  else .ok ()

/-- `Assignment.save` (models.py lines 123-125): unconditionally runs
`clean` (on creation and on update alike), then persists. -/
def Assignment.save (a : Assignment) (now : Int) : Except DomainError Assignment :=
  match a.clean now with
  | .error err => .error err
  | .ok _ => .ok a

/-- `Enrollment.clean` (models.py lines 180-190): enrollment-window and
capacity checks, both skipped when the row already has a primary key. -/
def enrollment_clean (db : DB) (e : Enrollment) (today : Int) : Except DomainError Unit :=
  match findCourse db e.course with
  | none => .error .does_not_exist
  | some c =>
    if !(c.is_enrollment_active today) && !e.pk then .error .enrollment_closed
    else if decide (c.max_students ≤ student_count db e.course) && !e.pk then .error .capacity
    else .ok ()

/-- `Submission.objects.filter(student=.., assignment__course=.., is_reviewed=True)`
from `Enrollment.update_grade` (models.py lines 198-200). -/
def reviewed_submissions (db : DB) (e : Enrollment) : List Submission :=
  db.submissions.filter (fun s =>
    s.student == e.student && s.is_reviewed &&
      match findAssignment db s.assignment with
      | some a => a.course == e.course
      | none => false)

/-- One `(score * weight, weight)` term per reviewed submission whose
`points` is not `None` — the body of the accumulation loop in
`Enrollment.update_grade` (models.py lines 210-216). -/
def grade_terms (db : DB) (e : Enrollment) : List (ℚ × ℚ) :=
  (reviewed_submissions db e).filterMap (fun s =>
    match s.points, findAssignment db s.assignment with
    | some p, some a => some (((p : ℚ) / (a.max_points : ℚ)) * a.weight, a.weight)
    | _, _ => none)

/-- `total_weight` accumulator of `Enrollment.update_grade`. -/
def total_weight (db : DB) (e : Enrollment) : ℚ :=
  ((grade_terms db e).map Prod.snd).sum

/-- `weighted_score` accumulator of `Enrollment.update_grade`. -/
def weighted_score (db : DB) (e : Enrollment) : ℚ :=
  ((grade_terms db e).map Prod.fst).sum

/-- Python's `round(x, 2)`, modelled over exact rationals: round `x * 100`
to the nearest integer and divide back. -/
def round2 (q : ℚ) : ℚ := ((round (q * 100) : ℤ) : ℚ) / 100

/-- `Enrollment.update_grade` (models.py lines 196-221), as the value the
`grade` column holds afterwards: `none` when no reviewed submission exists,
the rounded weight-normalized average when `total_weight > 0`, and the
previous (stale) value otherwise — the final `if` leaves `grade` untouched
when every reviewed submission lacks points or the weights sum to zero. -/
def update_grade (db : DB) (e : Enrollment) : Option ℚ :=
  if (reviewed_submissions db e).isEmpty then none
  else if 0 < total_weight db e then
    some (round2 (weighted_score db e / total_weight db e * 100))
  else e.grade

/-- `self.course.assignments` queryset (models.py line 225). -/
def course_assignments (db : DB) (cid : Nat) : List Assignment :=
  db.assignments.filter (fun a => a.course == cid)

/-- `Submission.objects.filter(student=.., assignment__course=..)` from
`Enrollment.update_completion` (models.py lines 229-231). -/
def student_submissions_in_course (db : DB) (e : Enrollment) : List Submission :=
  db.submissions.filter (fun s =>
    s.student == e.student &&
      match findAssignment db s.assignment with
      | some a => a.course == e.course
      | none => false)

/-- `Enrollment.update_completion` (models.py lines 223-234), as the value
the `completion_percentage` column holds afterwards. -/
def update_completion (db : DB) (e : Enrollment) : ℚ :=
  let total := (course_assignments db e.course).length
  if total = 0 then 0
  else ((student_submissions_in_course db e).length : ℚ) / (total : ℚ) * 100

/-- Write back an enrollment row, keyed by the `(student, course)` unique
pair (`enrollment.save()` on an existing row). -/
def replace_enrollment (db : DB) (e : Enrollment) : DB :=
  { db with enrollments := db.enrollments.map (fun x =>
      if x.student == e.student && x.course == e.course then e else x) }

/-- `Enrollment.objects.filter(student=.., course=.., is_active=True).exists()`
(models.py lines 273-275 / serializers.py lines 315-317). -/
def activeEnrollmentExists (db : DB) (sid cid : Nat) : Bool :=
  db.enrollments.any (fun e => e.student == sid && e.course == cid && e.is_active)

/-- `Submission.objects.filter(assignment=.., student=..).exists()`
(serializers.py lines 338-343). -/
def submissionExists (db : DB) (aid sid : Nat) : Bool :=
  db.submissions.any (fun s => s.assignment == aid && s.student == sid)

/-- `Submission.clean` (models.py lines 270-291): active-enrollment check,
acceptance-window check (creation only), required-attachment check. -/
def submission_clean (db : DB) (s : Submission) (pk : Bool) (now : Int) :
    Except DomainError Unit :=
  match findAssignment db s.assignment with
  | none => .error .does_not_exist
  | some a =>
    if !(activeEnrollmentExists db s.student a.course) then .error .not_enrolled
    else if !(a.can_accept_submission now) && !pk then .error .submission_closed
    else if a.attachment_required && !s.attachment then .error .attachment_required
    else .ok ()

/-- `Submission.save` on a fresh row (models.py lines 293-306): set
`is_late` from the due date, insert the row, then look up the enrollment
(no `is_active` filter) and run the recomputations.  `clean` is never
called.  A failing enrollment lookup (`DoesNotExist`) propagates, but only
after the row was inserted. -/
def submission_save_new (db : DB) (s : Submission) (now : Int) :
    DB × Except DomainError Submission :=
  match findAssignment db s.assignment with
  | none => (db, .error .does_not_exist)
  | some a =>
    let s1 := { s with is_late := decide (a.due_date < now) }
    let db1 := { db with submissions := db.submissions ++ [s1] }
    match db1.enrollments.find? (fun e => e.student == s.student && e.course == a.course) with
    | none => (db1, .error .does_not_exist)
    | some e =>
      let e1 := { e with completion_percentage := update_completion db1 e }
      let db2 := replace_enrollment db1 e1
      if s1.is_reviewed then
        let e2 := { e1 with grade := update_grade db2 e1 }
        (replace_enrollment db2 e2, .ok s1)
      else (db2, .ok s1)

/-- `Submission.save` on an existing row (`self.pk` set, so `is_late` is
left alone): overwrite the row, then the same recomputation tail. -/
def submission_save_existing (db : DB) (s : Submission) :
    DB × Except DomainError Unit :=
  match findAssignment db s.assignment with
  | none => (db, .error .does_not_exist)
  | some a =>
    let db1 := { db with submissions := db.submissions.map (fun x : Submission =>
        if x.assignment == s.assignment && x.student == s.student then s else x) }
    match db1.enrollments.find? (fun e : Enrollment => e.student == s.student && e.course == a.course) with
    | none => (db1, .error .does_not_exist)
    | some e =>
      let e1 := { e with completion_percentage := update_completion db1 e }
      let db2 := replace_enrollment db1 e1
      if s.is_reviewed then
        let e2 := { e1 with grade := update_grade db2 e1 }
        (replace_enrollment db2 e2, .ok ())
      else (db2, .ok ())

/-- The student submission path: `CreateSubmissionSerializer.validate`
(serializers.py lines 310-348) followed by the model-layer save.  Checks run
in source order: enrollment, acceptance window, attachment, duplicate. -/
def create_submission (db : DB) (sid aid : Nat) (attachment : Bool) (now : Int) :
    Except DomainError (DB × Submission) :=
  match findAssignment db aid with
  | none => .error .does_not_exist
  | some a =>
    if !(activeEnrollmentExists db sid a.course) then .error .not_enrolled
    else if !(a.can_accept_submission now) then .error .submission_closed
    else if a.attachment_required && !attachment then .error .attachment_required
    else if submissionExists db aid sid then .error .duplicate_submission
    else
      let s : Submission := { assignment := aid, student := sid, points := none,
                              is_reviewed := false, attachment := attachment,
                              is_late := false }
      match submission_save_new db s now with
      | (db1, .ok s1) => .ok (db1, s1)
      | (_, .error err) => .error err

/-- The grading path: `SubmissionViewSet.grade` + `GradeSubmissionSerializer`
(views.py lines 193-213, serializers.py lines 351-376).  `validate_points`
rejects points above `max_points`; `save(is_reviewed=True)` sets the fields
and triggers `Submission.save`, after which the serializer's `update` runs
`update_grade` once more. -/
def grade_submission (db : DB) (aid sid : Nat) (points : Nat) :
    DB × Except DomainError Unit :=
  match findSubmission db aid sid, findAssignment db aid with
  | some s, some a =>
    if a.max_points < points then (db, .error (.validation "points"))
    else
      let s1 := { s with points := some points, is_reviewed := true }
      match submission_save_existing db s1 with
      | (db1, .ok _) =>
        match db1.enrollments.find? (fun e => e.student == sid && e.course == a.course) with
        | none => (db1, .error .does_not_exist)
        | some e => (replace_enrollment db1 { e with grade := update_grade db1 e }, .ok ())
      | (db1, .error err) => (db1, .error err)
  | _, _ => (db, .error .does_not_exist)

/-- Outcome indicator returned by the enroll endpoint (HTTP 201 for a
created row, HTTP 200 otherwise). -/
inductive EnrollOutcome where
  | created
  | reactivated
  | already_active
  deriving DecidableEq

/-- `CourseViewSet.enroll` (views.py lines 60-83): `get_or_create` on the
`(student, course)` pair; an existing inactive row is reactivated.  On the
create path `Enrollment.save` runs `clean`; the reactivation save skips
both checks because the row has a primary key. -/
def enroll (db : DB) (sid cid : Nat) (today : Int) :
    Except DomainError (DB × EnrollOutcome) :=
  match db.enrollments.find? (fun e => e.student == sid && e.course == cid) with
  | some e =>
    if e.is_active then .ok (db, .already_active)
    else .ok (replace_enrollment db { e with is_active := true }, .reactivated)
  | none =>
    let e : Enrollment := { student := sid, course := cid, is_active := true,
                            completion_percentage := 0, grade := none, pk := false }
    match enrollment_clean db e today with
    | .error err => .error err
    | .ok _ =>
      .ok ({ db with enrollments := db.enrollments ++ [{ e with pk := true }] }, .created)

/-- The `grade` column of the `(student, course)` enrollment row. -/
def enrollment_grade (db : DB) (sid cid : Nat) : Option ℚ :=
  match db.enrollments.find? (fun e => e.student == sid && e.course == cid) with
  | some e => e.grade
  | none => none

/-- Range validity of the rows feeding `update_grade`: every reviewed
submission points at an assignment with positive `max_points` and
nonnegative `weight`, and its recorded points do not exceed `max_points`.
These are the serializer-enforced ranges (`GradeSubmissionSerializer.validate_points`,
`PositiveIntegerField`). -/
def grade_inputs_valid (db : DB) (e : Enrollment) : Bool :=
  (reviewed_submissions db e).all (fun s =>
    match findAssignment db s.assignment with
    | some a =>
      decide (0 < a.max_points) && decide (0 ≤ a.weight) &&
        (match s.points with
         | some p => decide (p ≤ a.max_points)
         | none => true)
    | none => true)

/-! ### Concrete fixtures

Rows used by the scenario theorems and witnesses below.  Dates are `Int`
timestamps; "now" in the scenarios is `10`, so a due date of `50` is in the
future and `5` is in the past. -/

/-- An open course with room for 30 students. -/
def course0 : Course :=
  { id := 0, is_active := true, enrollment_open := true,
    start_date := 0, end_date := 100, max_students := 30 }

/-- First scenario assignment: `max_points=100, weight=1`. -/
def assign100 : Assignment :=
  { id := 1, course := 0, due_date := 50, max_points := 100,
    allow_late_submissions := false, late_submission_deadline := none,
    attachment_required := false, weight := 1, pk := true }

/-- Second scenario assignment: `max_points=50, weight=1`. -/
def assign50 : Assignment :=
  { id := 2, course := 0, due_date := 50, max_points := 50,
    allow_late_submissions := false, late_submission_deadline := none,
    attachment_required := false, weight := 1, pk := true }

/-- Student 7's active enrollment in `course0`, no grade yet. -/
def enr_s7 : Enrollment :=
  { student := 7, course := 0, is_active := true,
    completion_percentage := 0, grade := none, pk := true }

/-- Base state: the course, its first assignment, the enrollment. -/
def base_db : DB :=
  { courses := [course0], assignments := [assign100],
    enrollments := [enr_s7], submissions := [] }

/-- State after student 7 submits to `assign100` and the teacher grades it
with `points=80` (spec scenario, first half). -/
def scenario_db1 : DB :=
  match create_submission base_db 7 1 false 10 with
  | .ok (db, _) => (grade_submission db 1 7 80).1
  | .error _ => base_db

/-- State after `assign50` is added, student 7 submits to it and the teacher
grades it with `points=40` (spec scenario, second half). -/
def scenario_db2 : DB :=
  let db := { scenario_db1 with assignments := scenario_db1.assignments ++ [assign50] }
  match create_submission db 7 2 false 10 with
  | .ok (db2, _) => (grade_submission db2 2 7 40).1
  | .error _ => db

/-- A reviewed submission whose `points` column is still `NULL` (reachable:
`GradeSubmissionSerializer` does not require `points`, so a grade request
carrying only feedback sets `is_reviewed` and leaves `points` empty). -/
def sub_reviewed_no_points : Submission :=
  { assignment := 1, student := 7, points := none, is_reviewed := true,
    attachment := false, is_late := false }

/-- State with one reviewed, point-less submission. -/
def db_points_none : DB :=
  { courses := [course0], assignments := [assign100],
    enrollments := [enr_s7], submissions := [sub_reviewed_no_points] }

/-- A course with a single seat. -/
def course_cap1 : Course :=
  { id := 3, is_active := true, enrollment_open := true,
    start_date := 0, end_date := 100, max_students := 1 }

/-- Student 8's active enrollment filling `course_cap1`. -/
def enr_s8_cap : Enrollment :=
  { student := 8, course := 3, is_active := true,
    completion_percentage := 0, grade := none, pk := true }

/-- Single-seat course with no enrollment yet. -/
def db_cap_empty : DB :=
  { courses := [course_cap1], assignments := [], enrollments := [], submissions := [] }

/-- Single-seat course already at capacity. -/
def db_cap_full : DB :=
  { courses := [course_cap1], assignments := [], enrollments := [enr_s8_cap],
    submissions := [] }

/-- A fresh (unsaved) enrollment attempt by student 9 on the 1-seat course. -/
def enr_s9_new : Enrollment :=
  { student := 9, course := 3, is_active := true,
    completion_percentage := 0, grade := none, pk := false }

/-- Student 7's enrollment in `course0`, deactivated by an unenroll. -/
def enr_s7_inactive : Enrollment :=
  { student := 7, course := 0, is_active := false,
    completion_percentage := 0, grade := none, pk := true }

/-- State holding only the deactivated membership. -/
def db_inactive_enr : DB :=
  { courses := [course0], assignments := [], enrollments := [enr_s7_inactive],
    submissions := [] }

/-- An assignment accepting late submissions until timestamp `100`
(due at `50`). -/
def assign_late : Assignment :=
  { id := 5, course := 0, due_date := 50, max_points := 100,
    allow_late_submissions := true, late_submission_deadline := some 100,
    attachment_required := false, weight := 1, pk := true }

/-- State for exercising the late-submission window. -/
def db_late : DB :=
  { courses := [course0], assignments := [assign_late],
    enrollments := [enr_s7], submissions := [] }

/-- State where student 7 has no `Enrollment` row at all for `course0`. -/
def db_no_enrollment : DB :=
  { courses := [course0], assignments := [assign100],
    enrollments := [], submissions := [] }

/-- A plain new submission by student 7 to `assign100`. -/
def sub_plain : Submission :=
  { assignment := 1, student := 7, points := none, is_reviewed := false,
    attachment := false, is_late := false }

/-- An assignment with `allow_late_submissions=False` whose (ignored)
`late_submission_deadline=20` is before its `due_date=50`. -/
def assign_dl_before_due : Assignment :=
  { id := 6, course := 0, due_date := 50, max_points := 100,
    allow_late_submissions := false, late_submission_deadline := some 20,
    attachment_required := false, weight := 1, pk := false }

/-- Same inconsistent deadline but with `allow_late_submissions=True`. -/
def assign_dl_before_due_late : Assignment :=
  { id := 7, course := 0, due_date := 50, max_points := 100,
    allow_late_submissions := true, late_submission_deadline := some 20,
    attachment_required := false, weight := 1, pk := false }

/-- An already-saved assignment (`pk` set) whose due date `5` is in the past
at `now = 10`. -/
def assign_past_due : Assignment :=
  { id := 8, course := 0, due_date := 5, max_points := 100,
    allow_late_submissions := false, late_submission_deadline := none,
    attachment_required := false, weight := 1, pk := true }

/-- A past-due assignment requiring an attachment, late work disallowed. -/
def assign_strict : Assignment :=
  { id := 9, course := 0, due_date := 5, max_points := 100,
    allow_late_submissions := false, late_submission_deadline := none,
    attachment_required := true, weight := 1, pk := true }

/-- Student 7's enrollment deactivated, strict assignment in place: every
`Submission.clean` precondition is violated for `sub_strict`. -/
def db_clean_violations : DB :=
  { courses := [course0], assignments := [assign_strict],
    enrollments := [enr_s7_inactive], submissions := [] }

/-- Attachment-less submission to the strict assignment. -/
def sub_strict : Submission :=
  { assignment := 9, student := 7, points := none, is_reviewed := false,
    attachment := false, is_late := false }

/-- State with one reviewed submission carrying 80 points. -/
def db_graded : DB :=
  { courses := [course0], assignments := [assign100],
    enrollments := [enr_s7],
    submissions := [{ assignment := 1, student := 7, points := some 80,
                      is_reviewed := true, attachment := false, is_late := false }] }

/-- Completion fixture: two assignments, one submitted. -/
def db_completion : DB :=
  { courses := [course0], assignments := [assign100, assign50],
    enrollments := [enr_s7],
    submissions := [{ assignment := 1, student := 7, points := none,
                      is_reviewed := false, attachment := false, is_late := false }] }

/-! ### Helper lemmas -/

/-- Evaluate `round` from sandwiching bounds on `r + 1/2`. -/
lemma round_eval (r : ℚ) (z : ℤ) (h1 : (z : ℚ) ≤ r + 1 / 2) (h2 : r + 1 / 2 < z + 1) :
    round r = z := by
  rw [round_eq]
  exact Int.floor_eq_iff.mpr ⟨h1, by linarith⟩

/-- `round2` of the integer 80 (used by the grading scenario). -/
lemma round2_eighty : round2 (80 : ℚ) = 80 := by
  unfold round2
  rw [round_eval (80 * 100) 8000 (by norm_num) (by norm_num)]
  norm_num

/-- Rounding to two decimals keeps a value of `[0, 100]` inside `[0, 100]`. -/
lemma round2_bounds {q : ℚ} (h0 : 0 ≤ q) (h1 : q ≤ 100) :
    0 ≤ round2 q ∧ round2 q ≤ 100 := by
  have hz0 : (0 : ℤ) ≤ round (q * 100) := by
    rw [round_eq]
    exact Int.le_floor.mpr (by push_cast; linarith)
  have hzu : round (q * 100) ≤ 10000 := by
    rw [round_eq]
    have hfl : ((⌊q * 100 + 1 / 2⌋ : ℤ) : ℚ) ≤ q * 100 + 1 / 2 := Int.floor_le _
    have hq : ((⌊q * 100 + 1 / 2⌋ : ℤ) : ℚ) < 10001 := by linarith
    have : (⌊q * 100 + 1 / 2⌋ : ℤ) < 10001 := by exact_mod_cast hq
    omega
  unfold round2
  constructor
  · positivity
  · rw [div_le_iff₀ (by norm_num : (0 : ℚ) < 100)]
    calc ((round (q * 100) : ℤ) : ℚ) ≤ ((10000 : ℤ) : ℚ) := by exact_mod_cast hzu
    _ = 100 * 100 := by norm_num

/-- Under the serializer-enforced ranges, every term of the grading loop has
a nonnegative weighted score bounded by its weight. -/
lemma grade_terms_bounds (db : DB) (e : Enrollment)
    (hv : grade_inputs_valid db e = true) :
    ∀ t ∈ grade_terms db e, 0 ≤ t.1 ∧ t.1 ≤ t.2 := by
  intro t ht
  obtain ⟨s, hs, hf⟩ := List.mem_filterMap.mp ht
  have hall := List.all_eq_true.mp hv s hs
  cases hp : s.points with
  | none => rw [hp] at hf; cases hfa : findAssignment db s.assignment <;>
      rw [hfa] at hf <;> simp at hf
  | some p =>
    cases hfa : findAssignment db s.assignment with
    | none => rw [hp, hfa] at hf; simp at hf
    | some a =>
      rw [hp, hfa] at hf
      simp only [Option.some.injEq] at hf
      rw [hfa] at hall
      simp only [hp, Bool.and_eq_true, decide_eq_true_eq] at hall
      obtain ⟨⟨hmax, hw⟩, hpmax⟩ := hall
      have hmaxQ : (0 : ℚ) < (a.max_points : ℚ) := by exact_mod_cast hmax
      have hscore0 : (0 : ℚ) ≤ (p : ℚ) / (a.max_points : ℚ) := by positivity
      have hscore1 : (p : ℚ) / (a.max_points : ℚ) ≤ 1 := by
        rw [div_le_one hmaxQ]
        exact_mod_cast hpmax
      rw [← hf]
      refine ⟨mul_nonneg hscore0 hw, ?_⟩
      calc (p : ℚ) / (a.max_points : ℚ) * a.weight ≤ 1 * a.weight :=
        mul_le_mul_of_nonneg_right hscore1 hw
      _ = a.weight := one_mul _

/-- A student's submissions in a course to (pairwise distinct) assignments
are at most as many as the course's assignments. -/
lemma submissions_le_assignments (db : DB) (e : Enrollment)
    (hsub : ((student_submissions_in_course db e).map (fun s => s.assignment)).Nodup) :
    (student_submissions_in_course db e).length ≤
      (course_assignments db e.course).length := by
  have hsubset : ((student_submissions_in_course db e).map (fun s => s.assignment)) ⊆
      ((course_assignments db e.course).map (fun a => a.id)) := by
    intro aid h
    obtain ⟨s, hs, hsa⟩ := List.mem_map.mp h
    obtain ⟨hmem, hpred⟩ := List.mem_filter.mp hs
    rw [Bool.and_eq_true] at hpred
    obtain ⟨_, hmatch⟩ := hpred
    cases hfa : findAssignment db s.assignment with
    | none => rw [hfa] at hmatch; simp at hmatch
    | some a =>
      rw [hfa] at hmatch
      have haid : a.id = s.assignment := by
        have := List.find?_some hfa
        simpa using this
      have hamem : a ∈ db.assignments := List.mem_of_find?_eq_some hfa
      refine List.mem_map.mpr ⟨a, ?_, by rw [haid, hsa]⟩
      unfold course_assignments
      rw [List.mem_filter]
      exact ⟨hamem, hmatch⟩
  have hle := (hsub.subperm hsubset).length_le
  simpa using hle

/-! ### Claim C9 — due-date-in-past check on update -/

/-- Claim C9 counterexample: the claim says the past-due-date rule is not
re-checked on update, but saving an already-persisted assignment (`pk` set)
whose due date lies in the past fails with the due-date `ValidationError`:
`Assignment.save` runs `clean` unconditionally. -/
theorem assignment_update_past_due_cex :
    assign_past_due.pk = true ∧
    Assignment.save assign_past_due 10 =
      Except.error (DomainError.validation "due_date") :=
  ⟨rfl, rfl⟩

/-- Claim C9 (amended): `Assignment.save` re-runs the past-due-date check on
every save — creation and update alike — so any save of an assignment whose
`due_date` is before now fails with the due-date `ValidationError`. -/
theorem assignment_save_past_due (a : Assignment) (now : Int)
    (h : a.due_date < now) :
    Assignment.save a now = Except.error (DomainError.validation "due_date") := by
  simp only [Assignment.save, Assignment.clean, if_pos h]

/-- Witness for `assignment_save_past_due` at the persisted fixture. -/
theorem assignment_save_past_due_witness :
    assign_past_due.due_date < 10 ∧
    Assignment.save assign_past_due 10 =
      Except.error (DomainError.validation "due_date") :=
  ⟨by decide, assignment_save_past_due assign_past_due 10 (by decide)⟩

/-! ### Claim C8 — late deadline before due date -/

/-- Claim C8 counterexample: with `allow_late_submissions=False`, a
`late_submission_deadline` strictly before the due date passes validation —
`Assignment.clean` only compares the two dates when late submissions are
allowed, so the claimed "regardless of allow_late_submissions" fails. -/
theorem assignment_clean_ignores_deadline_cex :
    assign_dl_before_due.allow_late_submissions = false ∧
    assign_dl_before_due.late_submission_deadline = some 20 ∧
    (20 : Int) < assign_dl_before_due.due_date ∧
    Assignment.clean assign_dl_before_due 10 = Except.ok () :=
  ⟨rfl, rfl, by decide, rfl⟩

/-- Claim C8 (amended): for a creation request whose due date is not in the
past, `Assignment.clean` fails with the late-deadline `ValidationError`
exactly when `allow_late_submissions` is set and the deadline is set and
earlier than the due date. -/
theorem assignment_clean_late_deadline_iff (a : Assignment) (now : Int)
    (h : now ≤ a.due_date) :
    Assignment.clean a now =
        Except.error (DomainError.validation "late_submission_deadline") ↔
      a.allow_late_submissions = true ∧
        ∃ d, a.late_submission_deadline = some d ∧ d < a.due_date := by
  unfold Assignment.clean
  rw [if_neg (by omega : ¬ a.due_date < now)]
  cases hl : a.allow_late_submissions with
  | false => simp
  | true =>
    cases hd : a.late_submission_deadline with
    | none => simp
    | some d =>
      by_cases hdd : d < a.due_date
      · simp [hdd]
      · simp [hdd]

/-- Witness for `assignment_clean_late_deadline_iff` at the fixture with
late submissions allowed and deadline 20 before due date 50. -/
theorem assignment_clean_late_deadline_iff_witness :
    (10 : Int) ≤ assign_dl_before_due_late.due_date ∧
    (Assignment.clean assign_dl_before_due_late 10 =
        Except.error (DomainError.validation "late_submission_deadline") ↔
      assign_dl_before_due_late.allow_late_submissions = true ∧
        ∃ d, assign_dl_before_due_late.late_submission_deadline = some d ∧
          d < assign_dl_before_due_late.due_date) :=
  ⟨by decide, assignment_clean_late_deadline_iff assign_dl_before_due_late 10 (by decide)⟩

/-! ### Claim C2 — the spec's concrete grading scenario -/

/-- Claim C2 counterexample: in the spec's scenario (submission to a
100-point weight-1 assignment graded 80, then a submission to a 50-point
weight-1 assignment graded 40) the recomputed grade is 80.00 — not the
90.00 the claim states: `(80/100·1 + 40/50·1)/2·100 = 80`. -/
theorem grading_scenario_cex :
    enrollment_grade scenario_db2 7 0 = some 80 ∧
    enrollment_grade scenario_db2 7 0 ≠ some 90 := by
  have h : enrollment_grade scenario_db2 7 0 = some 80 := by
    simp only [scenario_db2, scenario_db1, base_db, course0, assign100, assign50,
      enr_s7, create_submission, findAssignment, activeEnrollmentExists,
      Assignment.can_accept_submission, Assignment.is_past_due, submissionExists,
      submission_save_new, grade_submission, findSubmission,
      submission_save_existing, replace_enrollment, update_completion,
      course_assignments, student_submissions_in_course, update_grade,
      reviewed_submissions, grade_terms, total_weight, weighted_score,
      enrollment_grade, List.filter, List.filterMap, List.find?, List.map,
      List.any, List.isEmpty, List.length, List.sum]
    norm_num [round2_eighty]
  refine ⟨h, ?_⟩
  rw [h]
  norm_num

/-- Claim C2 (amended): after the first grading the enrollment grade is
80.00, and after the second assignment is graded the recomputed grade is
again 80.00 (the spec's formula evaluates to 80.00, not 90.00). -/
theorem grading_scenario_grades :
    enrollment_grade scenario_db1 7 0 = some 80 ∧
    enrollment_grade scenario_db2 7 0 = some 80 := by
  constructor
  · simp only [scenario_db1, base_db, course0, assign100, enr_s7,
      create_submission, findAssignment, activeEnrollmentExists,
      Assignment.can_accept_submission, Assignment.is_past_due, submissionExists,
      submission_save_new, grade_submission, findSubmission,
      submission_save_existing, replace_enrollment, update_completion,
      course_assignments, student_submissions_in_course, update_grade,
      reviewed_submissions, grade_terms, total_weight, weighted_score,
      enrollment_grade, List.filter, List.filterMap, List.find?, List.map,
      List.any, List.isEmpty, List.length, List.sum]
    norm_num [round2_eighty]
  · simp only [scenario_db2, scenario_db1, base_db, course0, assign100, assign50,
      enr_s7, create_submission, findAssignment, activeEnrollmentExists,
      Assignment.can_accept_submission, Assignment.is_past_due, submissionExists,
      submission_save_new, grade_submission, findSubmission,
      submission_save_existing, replace_enrollment, update_completion,
      course_assignments, student_submissions_in_course, update_grade,
      reviewed_submissions, grade_terms, total_weight, weighted_score,
      enrollment_grade, List.filter, List.filterMap, List.find?, List.map,
      List.any, List.isEmpty, List.length, List.sum]
    norm_num [round2_eighty]

/-! ### Claim C1 — grade recomputation -/

/-- Claim C1 counterexample: with exactly one reviewed submission whose
`points` is still `NULL`, the grade stays null even though the student has a
reviewed submission — refuting "null iff zero reviewed submissions".  The
accumulation loop skips point-less submissions, `total_weight` stays 0, and
the final `if` leaves the (null) grade untouched. -/
theorem update_grade_stale_cex :
    update_grade db_points_none enr_s7 = none ∧
    reviewed_submissions db_points_none enr_s7 ≠ [] := by
  constructor
  · simp only [update_grade, db_points_none, course0, assign100, enr_s7,
      sub_reviewed_no_points, reviewed_submissions, grade_terms, total_weight,
      weighted_score, findAssignment, List.filter, List.filterMap, List.find?,
      List.map, List.isEmpty, List.sum]
    norm_num
  · simp only [reviewed_submissions, db_points_none, course0, assign100, enr_s7,
      sub_reviewed_no_points, findAssignment, List.filter, List.find?]
    norm_num

/-- Claim C1 (amended): `update_grade` sets the grade to null when the
student has zero reviewed submissions; when the reviewed submissions whose
points are recorded carry positive total weight, the grade becomes the
rounded weight-normalized average, which lies in `[0, 100]` under the
serializer-enforced ranges; otherwise (reviewed submissions exist but none
has points, or the weights sum to zero) the previous grade is left
unchanged (stale). -/
theorem update_grade_spec (db : DB) (e : Enrollment)
    (hv : grade_inputs_valid db e = true) :
    (reviewed_submissions db e = [] → update_grade db e = none) ∧
    (0 < total_weight db e →
      update_grade db e =
        some (round2 (weighted_score db e / total_weight db e * 100)) ∧
      0 ≤ round2 (weighted_score db e / total_weight db e * 100) ∧
      round2 (weighted_score db e / total_weight db e * 100) ≤ 100) ∧
    (reviewed_submissions db e ≠ [] → total_weight db e ≤ 0 →
      update_grade db e = e.grade) := by
  refine ⟨?_, ?_, ?_⟩
  · intro h
    simp [update_grade, h]
  · intro hW
    have hbounds := grade_terms_bounds db e hv
    have hS0 : 0 ≤ weighted_score db e := by
      unfold weighted_score
      apply List.sum_nonneg
      intro x hx
      obtain ⟨t, ht, rfl⟩ := List.mem_map.mp hx
      exact (hbounds t ht).1
    have hSW : weighted_score db e ≤ total_weight db e :=
      List.sum_le_sum (fun t ht => (hbounds t ht).2)
    have hne : (reviewed_submissions db e).isEmpty = false := by
      cases hE : (reviewed_submissions db e).isEmpty with
      | false => rfl
      | true =>
        exfalso
        have hnil : reviewed_submissions db e = [] := by
          simpa using hE
        have hterms : grade_terms db e = [] := by
          unfold grade_terms
          rw [hnil]
          rfl
        have hW0 : total_weight db e = 0 := by
          unfold total_weight
          rw [hterms]
          rfl
        rw [hW0] at hW
        exact lt_irrefl 0 hW
    have heq : update_grade db e =
        some (round2 (weighted_score db e / total_weight db e * 100)) := by
      unfold update_grade
      rw [hne]
      simp [hW]
    have hX0 : 0 ≤ weighted_score db e / total_weight db e * 100 := by positivity
    have hX1 : weighted_score db e / total_weight db e * 100 ≤ 100 := by
      have h1 : weighted_score db e / total_weight db e ≤ 1 := by
        rw [div_le_one hW]
        exact hSW
      calc weighted_score db e / total_weight db e * 100 ≤ 1 * 100 :=
        mul_le_mul_of_nonneg_right h1 (by norm_num)
      _ = 100 := one_mul _
    obtain ⟨b0, b1⟩ := round2_bounds hX0 hX1
    exact ⟨heq, b0, b1⟩
  · intro hne hW
    have hE : (reviewed_submissions db e).isEmpty = false := by
      simpa using hne
    unfold update_grade
    rw [hE]
    simp [not_lt.mpr hW]

/-- Witness for `update_grade_spec` on a state with one reviewed 80-point
submission to the 100-point assignment. -/
theorem update_grade_spec_witness :
    grade_inputs_valid db_graded enr_s7 = true ∧
    ((reviewed_submissions db_graded enr_s7 = [] →
        update_grade db_graded enr_s7 = none) ∧
     (0 < total_weight db_graded enr_s7 →
        update_grade db_graded enr_s7 =
          some (round2 (weighted_score db_graded enr_s7 /
            total_weight db_graded enr_s7 * 100)) ∧
        0 ≤ round2 (weighted_score db_graded enr_s7 /
            total_weight db_graded enr_s7 * 100) ∧
        round2 (weighted_score db_graded enr_s7 /
            total_weight db_graded enr_s7 * 100) ≤ 100) ∧
     (reviewed_submissions db_graded enr_s7 ≠ [] →
        total_weight db_graded enr_s7 ≤ 0 →
        update_grade db_graded enr_s7 = enr_s7.grade)) :=
  ⟨by decide, update_grade_spec db_graded enr_s7 (by decide)⟩

/-! ### Claim C6 — failing recompute is not caught -/

/-- Claim C6 counterexample: when the enrollment row for the submission's
(student, course) pair is missing, the recompute step of `Submission.save`
raises `DoesNotExist` and the exception propagates to the caller — it is
not merely logged — even though the submission row was already inserted. -/
theorem recompute_failure_propagates_cex :
    (submission_save_new db_no_enrollment sub_plain 10).2 =
      Except.error DomainError.does_not_exist ∧
    (submission_save_new db_no_enrollment sub_plain 10).1.submissions.length = 1 :=
  ⟨rfl, rfl⟩

/-- Claim C6 (amended): `Submission.save` has no error handling around the
recompute: whenever the enrollment lookup feeding `update_completion` /
`update_grade` fails, the exception propagates out of `save` (nothing is
logged and the call does not succeed), although the submission row itself
has already been inserted by that point. -/
theorem recompute_failure_propagates (db : DB) (s : Submission) (a : Assignment)
    (now : Int)
    (ha : findAssignment db s.assignment = some a)
    (he : db.enrollments.find?
      (fun e => e.student == s.student && e.course == a.course) = none) :
    (submission_save_new db s now).2 = Except.error DomainError.does_not_exist ∧
    (submission_save_new db s now).1.submissions.length =
      db.submissions.length + 1 := by
  unfold submission_save_new
  rw [ha]
  simp only [he]
  simp

/-- Witness for `recompute_failure_propagates` at the fixture without an
enrollment row. -/
theorem recompute_failure_propagates_witness :
    findAssignment db_no_enrollment sub_plain.assignment = some assign100 ∧
    db_no_enrollment.enrollments.find?
      (fun e => e.student == sub_plain.student &&
        e.course == assign100.course) = none ∧
    ((submission_save_new db_no_enrollment sub_plain 10).2 =
        Except.error DomainError.does_not_exist ∧
      (submission_save_new db_no_enrollment sub_plain 10).1.submissions.length =
        db_no_enrollment.submissions.length + 1) :=
  ⟨rfl, rfl, recompute_failure_propagates db_no_enrollment sub_plain assign100 10 rfl rfl⟩

/-! ### Claim C10 — model-layer save skips clean -/

/-- Claim C10: `Submission.save` never invokes `Submission.clean`.  Even
when every eligibility check would fail — the student's enrollment row is
inactive, the acceptance window is closed, and a required attachment is
missing — the model-layer save persists the row and reports success, while
`clean` on the same state would have raised (its first failing check being
the active-enrollment one). -/
theorem submission_save_skips_clean (db : DB) (s : Submission) (a : Assignment)
    (e : Enrollment) (now : Int)
    (ha : findAssignment db s.assignment = some a)
    (he : db.enrollments.find?
      (fun x => x.student == s.student && x.course == a.course) = some e)
    (hact : activeEnrollmentExists db s.student a.course = false)
    (_hacc : a.can_accept_submission now = false)
    (_hreq : a.attachment_required = true) (_hna : s.attachment = false) :
    submission_clean db s false now = Except.error DomainError.not_enrolled ∧
    (∃ s1, (submission_save_new db s now).2 = Except.ok s1) ∧
    (submission_save_new db s now).1.submissions.length =
      db.submissions.length + 1 := by
  refine ⟨?_, ?_, ?_⟩
  · unfold submission_clean
    rw [ha]
    simp [hact]
  · unfold submission_save_new
    rw [ha]
    simp only [he]
    cases hrev : s.is_reviewed <;> simp [hrev]
  · unfold submission_save_new
    rw [ha]
    simp only [he]
    cases hrev : s.is_reviewed <;> simp [hrev, replace_enrollment]

/-- Witness for `submission_save_skips_clean`: inactive enrollment, closed
past-due assignment requiring an attachment, attachment-less submission. -/
theorem submission_save_skips_clean_witness :
    findAssignment db_clean_violations sub_strict.assignment = some assign_strict ∧
    db_clean_violations.enrollments.find?
      (fun x => x.student == sub_strict.student &&
        x.course == assign_strict.course) = some enr_s7_inactive ∧
    activeEnrollmentExists db_clean_violations sub_strict.student
      assign_strict.course = false ∧
    assign_strict.can_accept_submission 10 = false ∧
    assign_strict.attachment_required = true ∧
    sub_strict.attachment = false ∧
    (submission_clean db_clean_violations sub_strict false 10 =
        Except.error DomainError.not_enrolled ∧
      (∃ s1, (submission_save_new db_clean_violations sub_strict 10).2 =
        Except.ok s1) ∧
      (submission_save_new db_clean_violations sub_strict 10).1.submissions.length =
        db_clean_violations.submissions.length + 1) :=
  ⟨rfl, rfl, rfl, rfl, rfl, rfl,
    submission_save_skips_clean db_clean_violations sub_strict assign_strict
      enr_s7_inactive 10 rfl rfl rfl rfl rfl rfl⟩

/-! ### Claim C3 — capacity check -/

/-- Claim C3: for a new enrollment (no primary key) into a course whose
enrollment window is open, `Enrollment.clean` fails with the capacity error
exactly when the count of active enrollments has reached `max_students`,
and succeeds exactly when it is still below — so with `max_students = N`
the attempt at `N-1` active enrollments succeeds and the attempt at `N`
fails. -/
theorem enrollment_capacity_check (db : DB) (e : Enrollment) (c : Course)
    (today : Int)
    (hc : findCourse db e.course = some c)
    (hpk : e.pk = false)
    (hact : c.is_enrollment_active today = true) :
    (enrollment_clean db e today = Except.error DomainError.capacity ↔
      c.max_students ≤ student_count db e.course) ∧
    (enrollment_clean db e today = Except.ok () ↔
      student_count db e.course < c.max_students) := by
  unfold enrollment_clean
  rw [hc]
  simp only [hact, hpk, Bool.not_true, Bool.not_false, Bool.false_and,
    Bool.and_true, if_false]
  by_cases h : c.max_students ≤ student_count db e.course
  · simp [h]
  · simp [h]
    omega

/-- Witness for `enrollment_capacity_check`, applied twice on the 1-seat
course: once with 0 active enrollments (the attempt succeeds) and once at
capacity (the attempt fails). -/
theorem enrollment_capacity_check_witness :
    (findCourse db_cap_empty 3 = some course_cap1 ∧ enr_s9_new.pk = false ∧
      course_cap1.is_enrollment_active 10 = true ∧
      ((enrollment_clean db_cap_empty enr_s9_new 10 =
          Except.error DomainError.capacity ↔
        course_cap1.max_students ≤ student_count db_cap_empty enr_s9_new.course) ∧
       (enrollment_clean db_cap_empty enr_s9_new 10 = Except.ok () ↔
        student_count db_cap_empty enr_s9_new.course < course_cap1.max_students))) ∧
    (findCourse db_cap_full 3 = some course_cap1 ∧
      ((enrollment_clean db_cap_full enr_s9_new 10 =
          Except.error DomainError.capacity ↔
        course_cap1.max_students ≤ student_count db_cap_full enr_s9_new.course) ∧
       (enrollment_clean db_cap_full enr_s9_new 10 = Except.ok () ↔
        student_count db_cap_full enr_s9_new.course < course_cap1.max_students))) :=
  ⟨⟨rfl, rfl, by decide,
      enrollment_capacity_check db_cap_empty enr_s9_new course_cap1 10 rfl rfl (by decide)⟩,
   ⟨rfl,
      enrollment_capacity_check db_cap_full enr_s9_new course_cap1 10 rfl rfl (by decide)⟩⟩

/-! ### Claim C4 — enroll is idempotent per (student, course) -/

/-- Claim C4: when an `Enrollment` row already exists for the
(student, course) pair, `enroll` never creates a second row (the row count
is unchanged and the outcome is not `created`); if the existing membership
is inactive, the call reactivates it — every row for the pair ends up
active — and reports `reactivated`. -/
theorem enroll_idempotent (db : DB) (sid cid : Nat) (today : Int)
    (e : Enrollment)
    (h : db.enrollments.find?
      (fun x => x.student == sid && x.course == cid) = some e) :
    ∃ db2, enroll db sid cid today =
        Except.ok (db2,
          if e.is_active then EnrollOutcome.already_active
          else EnrollOutcome.reactivated) ∧
      db2.enrollments.length = db.enrollments.length ∧
      (if e.is_active then EnrollOutcome.already_active
        else EnrollOutcome.reactivated) ≠ EnrollOutcome.created ∧
      (e.is_active = false → ∀ x ∈ db2.enrollments,
        (x.student == sid && x.course == cid) = true → x.is_active = true) := by
  have hkey := List.find?_some h
  rw [Bool.and_eq_true, beq_iff_eq, beq_iff_eq] at hkey
  obtain ⟨hes, hec⟩ := hkey
  unfold enroll
  rw [h]
  cases hae : e.is_active with
  | true =>
    refine ⟨db, by simp [hae], rfl, by simp, ?_⟩
    intro hfalse
    exact absurd hfalse (by simp [hae])
  | false =>
    refine ⟨replace_enrollment db { e with is_active := true }, by simp [hae], ?_, by simp, ?_⟩
    · unfold replace_enrollment
      simp
    · intro _ x hx hkx
      unfold replace_enrollment at hx
      simp only [List.mem_map] at hx
      obtain ⟨y, _, hxy⟩ := hx
      by_cases hy : (y.student == e.student && y.course == e.course) = true
      · rw [if_pos hy] at hxy
        rw [← hxy]
      · rw [if_neg hy] at hxy
        rw [← hxy] at hkx
        rw [hes, hec] at hy
        exact absurd hkx hy

/-- Witness for `enroll_idempotent` on the deactivated membership. -/
theorem enroll_idempotent_witness :
    db_inactive_enr.enrollments.find?
      (fun x => x.student == 7 && x.course == 0) = some enr_s7_inactive ∧
    (∃ db2, enroll db_inactive_enr 7 0 10 =
        Except.ok (db2,
          if enr_s7_inactive.is_active then EnrollOutcome.already_active
          else EnrollOutcome.reactivated) ∧
      db2.enrollments.length = db_inactive_enr.enrollments.length ∧
      (if enr_s7_inactive.is_active then EnrollOutcome.already_active
        else EnrollOutcome.reactivated) ≠ EnrollOutcome.created ∧
      (enr_s7_inactive.is_active = false → ∀ x ∈ db2.enrollments,
        (x.student == 7 && x.course == 0) = true → x.is_active = true)) :=
  ⟨rfl, enroll_idempotent db_inactive_enr 7 0 10 enr_s7_inactive rfl⟩

/-! ### Claim C7 — completion recomputation -/

/-- Claim C7: `update_completion` sets the completion percentage to the
number of distinct assignments of the course with a submission by the
student, divided by the course's assignment count, times 100 (0 when the
course has no assignments); the result lies in `[0, 100]` and is zero
exactly when the course has no assignments or the student has no
submissions in it.  The hypothesis — the student's submissions reference
pairwise distinct assignments — is the `unique_together` constraint on
`(assignment, student)`. -/
theorem update_completion_spec (db : DB) (e : Enrollment)
    (hsub : ((student_submissions_in_course db e).map
      (fun s => s.assignment)).Nodup) :
    (update_completion db e =
      if (course_assignments db e.course).length = 0 then 0
      else (((student_submissions_in_course db e).map
              (fun s => s.assignment)).dedup.length : ℚ) /
            ((course_assignments db e.course).length : ℚ) * 100) ∧
    0 ≤ update_completion db e ∧ update_completion db e ≤ 100 ∧
    (update_completion db e = 0 ↔
      (course_assignments db e.course).length = 0 ∨
        student_submissions_in_course db e = []) := by
  have hded : (((student_submissions_in_course db e).map
      (fun s => s.assignment)).dedup.length : ℚ) =
      ((student_submissions_in_course db e).length : ℚ) := by
    rw [List.dedup_eq_self.mpr hsub, List.length_map]
  have hle := submissions_le_assignments db e hsub
  by_cases h0 : (course_assignments db e.course).length = 0
  · refine ⟨by simp [update_completion, h0], by simp [update_completion, h0],
      by simp [update_completion, h0], by simp [update_completion, h0]⟩
  · have h0Q : (0 : ℚ) < ((course_assignments db e.course).length : ℚ) := by
      have := Nat.pos_of_ne_zero h0
      exact_mod_cast this
    have hval : update_completion db e =
        ((student_submissions_in_course db e).length : ℚ) /
          ((course_assignments db e.course).length : ℚ) * 100 := by
      simp [update_completion, h0]
    refine ⟨?_, ?_, ?_, ?_⟩
    · rw [hval, if_neg h0, hded]
    · rw [hval]
      positivity
    · rw [hval]
      have h1 : ((student_submissions_in_course db e).length : ℚ) /
          ((course_assignments db e.course).length : ℚ) ≤ 1 := by
        rw [div_le_one h0Q]
        exact_mod_cast hle
      calc ((student_submissions_in_course db e).length : ℚ) /
            ((course_assignments db e.course).length : ℚ) * 100 ≤ 1 * 100 :=
        mul_le_mul_of_nonneg_right h1 (by norm_num)
      _ = 100 := one_mul _
    · rw [hval]
      constructor
      · intro hz
        right
        rcases mul_eq_zero.mp hz with hdiv | h100
        · rcases div_eq_zero_iff.mp hdiv with hnum | hden
          · have hlen : (student_submissions_in_course db e).length = 0 := by
              exact_mod_cast hnum
            exact List.length_eq_zero.mp hlen
          · exact absurd hden h0Q.ne'
        · norm_num at h100
      · rintro (h | h)
        · exact absurd h h0
        · rw [h]
          simp

/-- Witness for `update_completion_spec`: two assignments, one submitted. -/
theorem update_completion_spec_witness :
    ((student_submissions_in_course db_completion enr_s7).map
      (fun s => s.assignment)).Nodup ∧
    ((update_completion db_completion enr_s7 =
      if (course_assignments db_completion enr_s7.course).length = 0 then 0
      else (((student_submissions_in_course db_completion enr_s7).map
              (fun s => s.assignment)).dedup.length : ℚ) /
            ((course_assignments db_completion enr_s7.course).length : ℚ) * 100) ∧
    0 ≤ update_completion db_completion enr_s7 ∧
    update_completion db_completion enr_s7 ≤ 100 ∧
    (update_completion db_completion enr_s7 = 0 ↔
      (course_assignments db_completion enr_s7.course).length = 0 ∨
        student_submissions_in_course db_completion enr_s7 = [])) :=
  ⟨by decide, update_completion_spec db_completion enr_s7 (by decide)⟩

/-! ### Claim C5 — the late-submission window -/

/-- Claim C5: for an assignment allowing late submissions with a deadline
set, an otherwise-valid submission attempted strictly after the due date
succeeds with `is_late = true` while the attempt is at or before the late
deadline, and fails with the submission-closed error once the attempt is
after the late deadline. -/
theorem late_submission_window (db : DB) (sid aid : Nat) (a : Assignment)
    (d now : Int) (att : Bool)
    (ha : findAssignment db aid = some a)
    (hl : a.allow_late_submissions = true)
    (hd : a.late_submission_deadline = some d)
    (henr : activeEnrollmentExists db sid a.course = true)
    (hatt : a.attachment_required = false)
    (hdup : submissionExists db aid sid = false)
    (hlate : a.due_date < now) :
    (now ≤ d → ∃ db2 s1,
      create_submission db sid aid att now = Except.ok (db2, s1) ∧
      s1.is_late = true ∧ s1 ∈ db2.submissions) ∧
    (d < now → create_submission db sid aid att now =
      Except.error DomainError.submission_closed) := by
  have hcan : a.can_accept_submission now = decide (now ≤ d) := by
    unfold Assignment.can_accept_submission Assignment.is_past_due
    rw [hd, hl]
    simp [hlate]
  constructor
  · intro hnow
    have hcan1 : a.can_accept_submission now = true := by
      rw [hcan]
      simpa using hnow
    have hex : ∃ x ∈ db.enrollments,
        (x.student == sid && x.course == a.course && x.is_active) = true := by
      simpa [activeEnrollmentExists, List.any_eq_true] using henr
    have hfind : (db.enrollments.find?
        (fun x => x.student == sid && x.course == a.course)).isSome := by
      rw [List.find?_isSome]
      obtain ⟨x, hx, hpx⟩ := hex
      rw [Bool.and_eq_true, Bool.and_eq_true] at hpx
      exact ⟨x, hx, by rw [Bool.and_eq_true]; exact hpx.1⟩
    obtain ⟨e1, he1⟩ := Option.isSome_iff_exists.mp hfind
    unfold create_submission
    rw [ha]
    simp only [henr, hcan1, hatt, hdup, Bool.not_true, Bool.false_and,
      Bool.if_false_left, Bool.if_true_left]
    unfold submission_save_new
    simp only [ha, he1, decide_eq_true hlate]
    refine ⟨_, _, rfl, rfl, ?_⟩
    simp [replace_enrollment]
  · intro hd2
    have hcan0 : a.can_accept_submission now = false := by
      rw [hcan]
      simpa using not_le.mpr hd2
    unfold create_submission
    rw [ha]
    simp [henr, hcan0]

/-- Witness for `late_submission_window`, applied twice: an attempt at
time 60 (inside the late window of the fixture due at 50 with deadline
100) and an attempt at time 200 (after the deadline). -/
theorem late_submission_window_witness :
    (findAssignment db_late 5 = some assign_late ∧
      assign_late.allow_late_submissions = true ∧
      assign_late.late_submission_deadline = some 100 ∧
      activeEnrollmentExists db_late 7 assign_late.course = true ∧
      assign_late.attachment_required = false ∧
      submissionExists db_late 5 7 = false ∧
      assign_late.due_date < 60 ∧
      ((60 ≤ (100 : Int) → ∃ db2 s1,
          create_submission db_late 7 5 false 60 = Except.ok (db2, s1) ∧
          s1.is_late = true ∧ s1 ∈ db2.submissions) ∧
       ((100 : Int) < 60 → create_submission db_late 7 5 false 60 =
          Except.error DomainError.submission_closed))) ∧
    (assign_late.due_date < 200 ∧
      ((200 ≤ (100 : Int) → ∃ db2 s1,
          create_submission db_late 7 5 false 200 = Except.ok (db2, s1) ∧
          s1.is_late = true ∧ s1 ∈ db2.submissions) ∧
       ((100 : Int) < 200 → create_submission db_late 7 5 false 200 =
          Except.error DomainError.submission_closed))) :=
  ⟨⟨rfl, rfl, rfl, rfl, rfl, rfl, by decide,
      late_submission_window db_late 7 5 assign_late 100 60 false rfl rfl rfl
        rfl rfl rfl (by decide)⟩,
   ⟨by decide,
      late_submission_window db_late 7 5 assign_late 100 200 false rfl rfl rfl
        rfl rfl rfl (by decide)⟩⟩

end CourseMgmt
